import Mathlib

/-!
# Verification of the ruffle typed-value bridge and camera enumeration

Shallow embedding of `src/core/src/pixel_bender.rs` (the AVM2 ↔ PixelBender
typed-value bridge) and `src/core/src/avm2/globals/flash/media/camera.rs`
(the V4L2 camera enumeration), with theorems settling the specification
claims.

Modelling conventions:
* 32-bit floats (`f32`) and 64-bit floats (`f64`) are modelled as rationals
  (`ℚ`); the widening conversion `f32 → f64` is exact in the machine and is
  the identity here, and the narrowing conversion `f64 → f32` (which in the
  machine rounds to the nearest representable value) is modelled as the
  identity on the rational value.  NaN and infinities are outside the model.
* `i32` and `i16` payloads are modelled as `ℤ`, with the wrap-on-overflow
  conversions written explicitly as reductions modulo `2^32` / `2^16`.
* A Rust `panic!` / `unwrap()` / `expect()` abort is an explicit
  `DecodeOutcome.panic` outcome, distinct from the `Err` arm of the Rust
  `Result` (which the decoder never constructs).
-/

namespace Ruffle

/-- Truncation of a rational toward zero, as Rust `trunc` on floats. -/
def ratTrunc (q : ℚ) : ℤ :=
  if 0 ≤ q then ⌊q⌋ else ⌈q⌉

/-- Rust `f32::fract`: `self - self.trunc()`. -/
def ratFract (q : ℚ) : ℚ :=
  q - (ratTrunc q : ℚ)

/-- Reduction of an integer modulo `2^32` into the signed 32-bit range
`[-2^31, 2^31)`. -/
def wrap32 (n : ℤ) : ℤ :=
  (n + 2 ^ 31) % 2 ^ 32 - 2 ^ 31

/-- Reduction of an integer modulo `2^16` into the signed 16-bit range
`[-2^15, 2^15)`; the Rust `as i16` conversion from `i32`. -/
def wrap16 (n : ℤ) : ℤ :=
  (n + 2 ^ 15) % 2 ^ 16 - 2 ^ 15

/-- Modelled from the spec: `crate::ecma_conversions::f64_to_wrapping_i32`
is not under `src/`; the spec describes it as legacy float→int coercion,
truncating and then reducing modulo `2^32` into the signed 32-bit range. -/
def f64_to_wrapping_i32 (q : ℚ) : ℤ :=
  wrap32 (ratTrunc q)

/-- The AVM2 dynamic value, restricted to the shapes the bridge inspects.
`Value::Object` splits into the case where `as_array_storage()` yields an
array (with possibly-missing elements, i.e. holes) and any other object;
`other` covers the remaining variants (`Undefined`, `Null`, `Bool`). -/
inductive Value where
  | string (s : String)
  | number (n : ℚ)
  | integer (i : ℤ)
  | arrayObject (elems : List (Option Value))
  | otherObject
  | other

/-- `PixelBenderTypeOpcode`: the requested shape at a decode site. -/
inductive PixelBenderTypeOpcode where
  | TFloat | TFloat2 | TFloat3 | TFloat4
  | TFloat2x2 | TFloat3x3 | TFloat4x4
  | TInt | TInt2 | TInt3 | TInt4
  | TString
  deriving DecidableEq, Repr

/-- `PixelBenderType`: the decoded shader-parameter value.  Matrix payloads
are `[f32; 4/9/16]` in the source; here a `List ℚ` whose length is checked
at the construction site (the `try_into().unwrap()`). -/
inductive PixelBenderType where
  | TString (s : String)
  | TInt (i : ℤ)
  | TFloat (f : ℚ)
  | TFloat2 (f1 f2 : ℚ)
  | TFloat3 (f1 f2 f3 : ℚ)
  | TFloat4 (f1 f2 f3 f4 : ℚ)
  | TFloat2x2 (fs : List ℚ)
  | TFloat3x3 (fs : List ℚ)
  | TFloat4x4 (fs : List ℚ)
  | TInt2 (i1 i2 : ℤ)
  | TInt3 (i1 i2 i3 : ℤ)
  | TInt4 (i1 i2 i3 i4 : ℤ)
  deriving DecidableEq, Repr

/-- Modelled from the spec: the host coercion `Value::coerce_to_number` is
host-engine code outside `src/`; per the spec it applies the host's standard
numeric-coercion rules and may fail.  Numbers and integers coerce to their
numeric value; the remaining cases (string parsing, NaN-producing inputs,
objects whose `valueOf` throws) are outside the rational model and are
modelled as coercion failure. -/
def coerce_to_number : Value → Option ℚ
  | .number n => some n
  | .integer i => some i
  | _ => none

/-- Modelled from the spec: the host coercion `Value::coerce_to_i32`
(outside `src/`), the host's standard to-32-bit-integer coercion: integers
pass through, numbers go through the legacy wrapping float→int conversion;
other cases are modelled as coercion failure. -/
def coerce_to_i32 : Value → Option ℤ
  | .integer i => i
  | .number n => some (f64_to_wrapping_i32 n)
  | _ => none

/-- Outcome of `from_avm2_value`: the Rust function returns
`Result<PixelBenderType, Error>` but can also abort by panicking; `err` is
the `Err` arm of the `Result`, `panic` an abort with its message. -/
inductive DecodeOutcome where
  | ok (t : PixelBenderType)
  | err
  | panic (msg : String)
  deriving DecidableEq, Repr

/-- One step of the float-path iterator
`array.iter().map(|val| val.expect("Array with hole").coerce_to_number(activation).unwrap() as f32)`
applied to the element at index `i`: a missing iterator element is the
`vals.next().unwrap()` panic, a hole is the `expect` panic, a failed
coercion is the `unwrap` panic; the final `as f32` narrowing is the
identity in the rational model. -/
def nextFloat (elems : List (Option Value)) (i : ℕ) : Except String ℚ :=
  match elems[i]? with
  | none => .error "called Option unwrap on None"
  | some none => .error "Array with hole"
  | some (some v) =>
    match coerce_to_number v with
    | none => .error "coercion failure"
    | some n => .ok n

/-- One step of the int-path iterator
`array.iter().map(|val| val.expect("Array with hole").coerce_to_i32(activation).unwrap() as i16)`
at index `i`. -/
def nextInt (elems : List (Option Value)) (i : ℕ) : Except String ℤ :=
  match elems[i]? with
  | none => .error "called Option unwrap on None"
  | some none => .error "Array with hole"
  | some (some v) =>
    match coerce_to_i32 v with
    | none => .error "coercion failure"
    | some n => .ok (wrap16 n)

/-- `vals.collect::<Vec<_>>()` on the float-path iterator: every element is
forced in order, the first hole or failed coercion panics. -/
def collectFloats : List (Option Value) → Except String (List ℚ)
  | [] => .ok []
  | none :: _ => .error "Array with hole"
  | some v :: rest =>
    match coerce_to_number v with
    | none => .error "coercion failure"
    | some n => do
      let ns ← collectFloats rest
      pure (n :: ns)

/-- The array branch of `from_avm2_value` (the `Value::Object` case with
array storage), for a float-family `kind`; the matrix cases append the
`try_into().unwrap()` length check against the fixed array size. -/
def decodeFloatArray (elems : List (Option Value)) :
    PixelBenderTypeOpcode → Except String PixelBenderType
  | .TFloat => do
    let a ← nextFloat elems 0
    pure (.TFloat a)
  | .TFloat2 => do
    let a ← nextFloat elems 0
    let b ← nextFloat elems 1
    pure (.TFloat2 a b)
  | .TFloat3 => do
    let a ← nextFloat elems 0
    let b ← nextFloat elems 1
    let c ← nextFloat elems 2
    pure (.TFloat3 a b c)
  | .TFloat4 => do
    let a ← nextFloat elems 0
    let b ← nextFloat elems 1
    let c ← nextFloat elems 2
    let d ← nextFloat elems 3
    pure (.TFloat4 a b c d)
  | .TFloat2x2 => do
    let fs ← collectFloats elems
    if fs.length = 4 then pure (.TFloat2x2 fs) else .error "try_into failed"
  | .TFloat3x3 => do
    let fs ← collectFloats elems
    if fs.length = 9 then pure (.TFloat3x3 fs) else .error "try_into failed"
  | .TFloat4x4 => do
    let fs ← collectFloats elems
    if fs.length = 16 then pure (.TFloat4x4 fs) else .error "try_into failed"
  | _ => .error "Unexpected float kind"

/-- The array branch of `from_avm2_value` for a non-float `kind`; reaching
the wildcard arm is the `unreachable!("Unexpected int kind")` panic (hit by
`TString`, since `is_float` is false for it). -/
def decodeIntArray (elems : List (Option Value)) :
    PixelBenderTypeOpcode → Except String PixelBenderType
  | .TInt => do
    let a ← nextInt elems 0
    pure (.TInt a)
  | .TInt2 => do
    let a ← nextInt elems 0
    let b ← nextInt elems 1
    pure (.TInt2 a b)
  | .TInt3 => do
    let a ← nextInt elems 0
    let b ← nextInt elems 1
    let c ← nextInt elems 2
    pure (.TInt3 a b c)
  | .TInt4 => do
    let a ← nextInt elems 0
    let b ← nextInt elems 1
    let c ← nextInt elems 2
    let d ← nextInt elems 3
    pure (.TInt4 a b c d)
  | _ => .error "Unexpected int kind"

/-- `is_float` from `from_avm2_value`: whether `kind` is in the
float family. -/
def isFloatKind : PixelBenderTypeOpcode → Bool
  | .TFloat | .TFloat2 | .TFloat3 | .TFloat4
  | .TFloat2x2 | .TFloat3x3 | .TFloat4x4 => true
  | _ => false

/-- `PixelBenderTypeExt::from_avm2_value`.  Scalar host values convert
directly regardless of `kind` (`String`→`TString`, `Number`→`TFloat` via the
`as f32` narrowing, `Integer`→`TInt` via `as i16` wrapping); an object with
array storage goes through the float or int array branch; a non-array
object and any remaining variant panic. -/
def from_avm2_value (value : Value) (kind : PixelBenderTypeOpcode) :
    DecodeOutcome :=
  match value with
  | .string s => .ok (.TString s)
  | .number n => .ok (.TFloat n)
  | .integer i => .ok (.TInt (wrap16 i))
  | .arrayObject elems =>
    match (if isFloatKind kind then decodeFloatArray elems kind
           else decodeIntArray elems kind) with
    | .ok t => .ok t
    | .error msg => .panic msg
  | .otherObject => .panic "Unexpected object"
  | .other => .panic "Unexpected value"

/-- `ArrayObject::from_storage(activation, ArrayStorage::from_args(&vals))`:
a dense AVM2 array (no holes) holding `vals`. -/
def mkArray (vals : List Value) : Value :=
  .arrayObject (vals.map some)

/-- The closure `cv` in `as_avm2_value`: a float with zero fractional part
becomes an Integer via `f64_to_wrapping_i32(*f as f64)` (widening is exact),
otherwise a Number holding the value widened to `f64`. -/
def cv (f : ℚ) : Value :=
  if ratFract f = 0 then .integer (f64_to_wrapping_i32 f) else .number f

/-- `PixelBenderTypeExt::as_avm2_value`.  The Rust function returns
`Result<Value, Error>` but every branch returns `Ok`, so the model returns
the value directly.  `TInt(i)` as a bare integer is the `(*i).into()`
sign-extending `i16 → i32` conversion, value-preserving. -/
def as_avm2_value (t : PixelBenderType) (tint_as_int : Bool) : Value :=
  match t with
  | .TString s => .string s
  | .TInt i => if tint_as_int then .integer i else mkArray [.integer i]
  | .TFloat f => mkArray [cv f]
  | .TFloat2 f1 f2 => mkArray [cv f1, cv f2]
  | .TFloat3 f1 f2 f3 => mkArray [cv f1, cv f2, cv f3]
  | .TFloat4 f1 f2 f3 f4 => mkArray [cv f1, cv f2, cv f3, cv f4]
  | .TFloat2x2 fs => mkArray (fs.map cv)
  | .TFloat3x3 fs => mkArray (fs.map cv)
  | .TFloat4x4 fs => mkArray (fs.map cv)
  | .TInt2 i1 i2 => mkArray [.integer i1, .integer i2]
  | .TInt3 i1 i2 i3 => mkArray [.integer i1, .integer i2, .integer i3]
  | .TInt4 i1 i2 i3 i4 =>
    mkArray [.integer i1, .integer i2, .integer i3, .integer i4]

/-!
## Camera device enumeration (`camera.rs`, Linux branch)

The V4L2 device layer (`v4l::Device`, `query_caps`) is hardware-facing; a
probe of one device index is modelled by its observable outcome.
-/

/-- Outcome of probing one device index: `Device::new(i)` fails with
`NotFound`, with `PermissionDenied`, or with any other error kind; or the
open succeeds and `query_caps()` fails; or both succeed, reporting whether
the capability flags contain `VIDEO_CAPTURE` and the raw `card` name bytes. -/
inductive DeviceProbe where
  | openNotFound
  | openPermissionDenied
  | openOtherError
  | capsError
  | opened (videoCapture : Bool) (card : List ℕ)
  deriving DecidableEq, Repr

/-- The card-name extraction in `get_camera_names`: the `card` bytes up to
the first NUL (`position(|&c| c == 0)`, slicing, with the lossy UTF-8
decoding abstracted away — names stay byte lists). -/
def cardName (card : List ℕ) : List ℕ :=
  card.takeWhile (fun c => c ≠ 0)

/-- The `for i in 0..10` loop body of `get_camera_names`, over the list of
probe outcomes in index order: `NotFound` on open breaks the loop,
`PermissionDenied` and other open errors fall through to the next index, a
failed `query_caps` continues, and an opened device contributes its card
name exactly when its capabilities contain `VIDEO_CAPTURE`. -/
def cameraNamesScan : List DeviceProbe → List (List ℕ)
  | [] => []
  | .openNotFound :: _ => []
  | .openPermissionDenied :: rest => cameraNamesScan rest
  | .openOtherError :: rest => cameraNamesScan rest
  | .capsError :: rest => cameraNamesScan rest
  | .opened true card :: rest => cardName card :: cameraNamesScan rest
  | .opened false _ :: rest => cameraNamesScan rest

/-- `get_camera_names` (Linux branch): probe indices `0..10` in order and
scan. -/
def get_camera_names (probe : ℕ → DeviceProbe) : List (List ℕ) :=
  cameraNamesScan ((List.range 10).map probe)

/-- The `for i in 0..10` loop of `is_supported`: return `true` at the first
opened device whose capabilities contain `VIDEO_CAPTURE`, break (returning
`false`) on a `NotFound` open error, otherwise keep scanning; `false` when
the loop ends. -/
def isSupportedScan : List DeviceProbe → Bool
  | [] => false
  | .openNotFound :: _ => false
  | .openPermissionDenied :: rest => isSupportedScan rest
  | .openOtherError :: rest => isSupportedScan rest
  | .capsError :: rest => isSupportedScan rest
  | .opened true _ :: _ => true
  | .opened false _ :: rest => isSupportedScan rest

/-- `is_supported` (Linux branch). -/
def is_supported (probe : ℕ → DeviceProbe) : Bool :=
  isSupportedScan ((List.range 10).map probe)

/-- The name yielded by one probe outcome, when the device opens, its
capability query succeeds and the capability set includes video-capture. -/
def yieldedName : DeviceProbe → Option (List ℕ)
  | .opened true card => some (cardName card)
  | _ => none

/-- The predicate "this probe outcome is not an open failure with
device-not-found": the loop-continuation condition of the camera scans. -/
def notNotFound : DeviceProbe → Bool
  | .openNotFound => false
  | _ => true

/-- A dense AVM2 array of host Numbers — the `Array[1, 2, 3]` inputs of the
specification examples. -/
def mkNumArray (qs : List ℚ) : Value :=
  mkArray (qs.map Value.number)

/-!
## Helper lemmas
-/

theorem mkNumArray_elems (qs : List ℚ) :
    mkNumArray qs = .arrayObject (qs.map fun q => some (Value.number q)) := by
  simp [mkNumArray, mkArray, List.map_map, Function.comp]

theorem collectFloats_numbers (qs : List ℚ) :
    collectFloats (qs.map fun q => some (Value.number q)) = .ok qs := by
  induction qs with
  | nil => rfl
  | cons q rest ih => simp [collectFloats, coerce_to_number, ih]

theorem collectFloats_hole (pre : List ℚ) (post : List (Option Value)) :
    collectFloats ((pre.map fun q => some (Value.number q)) ++ none :: post) =
      .error "Array with hole" := by
  induction pre with
  | nil => rfl
  | cons q rest ih => simp [collectFloats, coerce_to_number, ih]

/-!
## Claim theorems
-/

/-- C1 counterexample: decoding the AVM2 value `Undefined`/`Null`/`Bool`
(the `other` variant) against `TFloat` does not produce an `Ok` or a typed
`Err`: it aborts by panicking, contradicting the claim that no input
combination causes a panic instead of a reported Error. -/
theorem claim_C1_counterexample :
    from_avm2_value Value.other PixelBenderTypeOpcode.TFloat =
      DecodeOutcome.panic "Unexpected value" := rfl

/-- C1 amended: `from_avm2_value` never returns a typed `Err` at all —
every failure (unsupported value variant, non-array object, hole at a
consumed position, missing elements, mismatched matrix element count,
failed element coercion) aborts via panic, and the panics are reachable:
any non-array object and any remaining value variant panic for every
requested kind. -/
theorem claim_C1_amended :
    (∀ (v : Value) (k : PixelBenderTypeOpcode),
      from_avm2_value v k ≠ DecodeOutcome.err) ∧
    (∀ k : PixelBenderTypeOpcode,
      from_avm2_value Value.otherObject k =
        DecodeOutcome.panic "Unexpected object") ∧
    (∀ k : PixelBenderTypeOpcode,
      from_avm2_value Value.other k =
        DecodeOutcome.panic "Unexpected value") := by
  refine ⟨fun v k => ?_, fun k => rfl, fun k => rfl⟩
  cases v <;> simp [from_avm2_value]
  split <;> simp

/-- C2 counterexample: a 3-element array against `TFloat4` panics (unwrap
of an exhausted iterator) instead of failing with a `ShapeMismatch` error;
an 8-element array against `TFloat3x3` panics (failed fixed-size
conversion) instead of a `ShapeMismatch` error; and a 3-element array
against `TFloat2` — a count different from the arity — succeeds on the
first two elements instead of failing at all. -/
theorem claim_C2_counterexample :
    from_avm2_value (mkNumArray [1, 2, 3]) .TFloat4 =
      DecodeOutcome.panic "called Option unwrap on None" ∧
    from_avm2_value (mkNumArray [1, 2, 3, 4, 5, 6, 7, 8]) .TFloat3x3 =
      DecodeOutcome.panic "try_into failed" ∧
    from_avm2_value (mkNumArray [1, 2, 3]) .TFloat2 =
      DecodeOutcome.ok (.TFloat2 1 2) := by
  refine ⟨rfl, rfl, rfl⟩

/-- C2 amended: no `ShapeMismatch` error exists.  For matrix kinds an
element count equal to the arity succeeds, assembling in array order, and
any other count panics; for vector kinds only the first arity elements are
consumed — fewer elements panic (exhausted-iterator unwrap) while extra
elements are silently ignored and decode succeeds on the leading prefix. -/
theorem claim_C2_amended :
    (∀ qs : List ℚ, qs.length = 9 →
      from_avm2_value (mkNumArray qs) .TFloat3x3 =
        DecodeOutcome.ok (.TFloat3x3 qs)) ∧
    (∀ qs : List ℚ, qs.length ≠ 9 →
      from_avm2_value (mkNumArray qs) .TFloat3x3 =
        DecodeOutcome.panic "try_into failed") ∧
    (∀ a b c : ℚ,
      from_avm2_value (mkNumArray [a, b, c]) .TFloat2 =
        DecodeOutcome.ok (.TFloat2 a b)) ∧
    (∀ qs : List ℚ, qs.length < 4 →
      from_avm2_value (mkNumArray qs) .TFloat4 =
        DecodeOutcome.panic "called Option unwrap on None") := by
  refine ⟨fun qs h => ?_, fun qs h => ?_, fun a b c => rfl, fun qs h => ?_⟩
  · rw [mkNumArray_elems]
    simp [from_avm2_value, isFloatKind, decodeFloatArray,
      collectFloats_numbers, Bind.bind, Except.bind, pure, Except.pure, h]
  · rw [mkNumArray_elems]
    simp [from_avm2_value, isFloatKind, decodeFloatArray,
      collectFloats_numbers, Bind.bind, Except.bind, pure, Except.pure, h]
  · match qs, h with
    | [], _ => rfl
    | [a], _ => rfl
    | [a, b], _ => rfl
    | [a, b, c], _ => rfl

/-- C2 amended witness at the specification's own example inputs. -/
theorem claim_C2_amended_witness :
    from_avm2_value (mkNumArray [1, 2, 3, 4, 5, 6, 7, 8, 9]) .TFloat3x3 =
      DecodeOutcome.ok (.TFloat3x3 [1, 2, 3, 4, 5, 6, 7, 8, 9]) ∧
    from_avm2_value (mkNumArray [1, 2, 3, 4, 5, 6, 7, 8]) .TFloat3x3 =
      DecodeOutcome.panic "try_into failed" ∧
    from_avm2_value (mkNumArray [1, 2]) .TFloat4 =
      DecodeOutcome.panic "called Option unwrap on None" :=
  ⟨claim_C2_amended.1 [1, 2, 3, 4, 5, 6, 7, 8, 9] rfl,
   claim_C2_amended.2.1 [1, 2, 3, 4, 5, 6, 7, 8] (by decide),
   claim_C2_amended.2.2.2 [1, 2] (by decide)⟩

/-- C3 counterexample: `Array[1, <hole>, 3]` against `TFloat3` does not
fail with a `HoleInSequence` error — it panics; and the same array against
the kind `TFloat` does not fail at all: the hole sits past the consumed
prefix and decode succeeds, contradicting "decode of that array against
any kind fails". -/
theorem claim_C3_counterexample :
    from_avm2_value
        (Value.arrayObject
          [some (Value.number 1), none, some (Value.number 3)])
        .TFloat3 =
      DecodeOutcome.panic "Array with hole" ∧
    from_avm2_value
        (Value.arrayObject
          [some (Value.number 1), none, some (Value.number 3)])
        .TFloat =
      DecodeOutcome.ok (.TFloat 1) :=
  ⟨rfl, rfl⟩

/-- C3 amended: a hole is never skipped or replaced by a default, but the
failure is a panic (message "Array with hole"), not a `HoleInSequence`
error, and only holes at consumed positions are hit: matrix kinds force
every element, so a hole anywhere panics; scalar and vector kinds consume
only the leading arity elements, so `Array[1, <hole>, 3]` panics against
`TFloat3` yet decodes successfully against `TFloat`. -/
theorem claim_C3_amended :
    (∀ (pre : List ℚ) (post : List (Option Value)),
      from_avm2_value
          (Value.arrayObject
            ((pre.map fun q => some (Value.number q)) ++ none :: post))
          .TFloat3x3 =
        DecodeOutcome.panic "Array with hole") ∧
    (∀ a c : ℚ,
      from_avm2_value
          (Value.arrayObject
            [some (Value.number a), none, some (Value.number c)])
          .TFloat3 =
        DecodeOutcome.panic "Array with hole") ∧
    (∀ a c : ℚ,
      from_avm2_value
          (Value.arrayObject
            [some (Value.number a), none, some (Value.number c)])
          .TFloat =
        DecodeOutcome.ok (.TFloat a)) := by
  refine ⟨fun pre post => ?_, fun a c => rfl, fun a c => rfl⟩
  simp [from_avm2_value, isFloatKind, decodeFloatArray, collectFloats_hole,
    Bind.bind, Except.bind]

/-- C4 counterexample: a String decoded against the numeric kind `TFloat4`
does not fail with `UnsupportedInputKind` — it succeeds, and with a
`TString` tag whose shape differs from the requested kind; an Array
decoded against `TString` panics instead of returning an error. -/
theorem claim_C4_counterexample :
    from_avm2_value (Value.string "abc") .TFloat4 =
      DecodeOutcome.ok (.TString "abc") ∧
    from_avm2_value (mkNumArray [1]) .TString =
      DecodeOutcome.panic "Unexpected int kind" :=
  ⟨rfl, rfl⟩

/-- C4 amended: no `UnsupportedInputKind` error is ever produced.  A
String input decodes to `Ok TString` regardless of the requested kind, a
Number to `Ok TFloat` and an Integer to `Ok TInt` likewise regardless of
kind — an incompatible scalar category silently succeeds with a
differently-shaped tag; an Array against `TString` and a non-array object
against any kind abort by panic. -/
theorem claim_C4_amended :
    (∀ (s : String) (k : PixelBenderTypeOpcode),
      from_avm2_value (Value.string s) k = DecodeOutcome.ok (.TString s)) ∧
    (∀ (n : ℚ) (k : PixelBenderTypeOpcode),
      from_avm2_value (Value.number n) k = DecodeOutcome.ok (.TFloat n)) ∧
    (∀ (i : ℤ) (k : PixelBenderTypeOpcode),
      from_avm2_value (Value.integer i) k =
        DecodeOutcome.ok (.TInt (wrap16 i))) ∧
    (∀ elems : List (Option Value),
      from_avm2_value (Value.arrayObject elems) .TString =
        DecodeOutcome.panic "Unexpected int kind") ∧
    (∀ k : PixelBenderTypeOpcode,
      from_avm2_value Value.otherObject k =
        DecodeOutcome.panic "Unexpected object") :=
  ⟨fun _ _ => rfl, fun _ _ => rfl, fun _ _ => rfl, fun _ => rfl,
   fun _ => rfl⟩

/-- C5: the decode/encode round trip on float vectors whose components all
have nonzero fractional part.  `decode(Array(v), kind)` succeeds with the
vector tag of `v`, and `decode(encode(that tag, false), kind)` yields the
same tag again, for each of the vector kinds `TFloat2`, `TFloat3`,
`TFloat4`. -/
theorem claim_C5_roundtrip (a b c d : ℚ)
    (ha : ratFract a ≠ 0) (hb : ratFract b ≠ 0)
    (hc : ratFract c ≠ 0) (hd : ratFract d ≠ 0) :
    (from_avm2_value (mkNumArray [a, b]) .TFloat2 =
        DecodeOutcome.ok (.TFloat2 a b) ∧
      from_avm2_value (as_avm2_value (.TFloat2 a b) false) .TFloat2 =
        DecodeOutcome.ok (.TFloat2 a b)) ∧
    (from_avm2_value (mkNumArray [a, b, c]) .TFloat3 =
        DecodeOutcome.ok (.TFloat3 a b c) ∧
      from_avm2_value (as_avm2_value (.TFloat3 a b c) false) .TFloat3 =
        DecodeOutcome.ok (.TFloat3 a b c)) ∧
    (from_avm2_value (mkNumArray [a, b, c, d]) .TFloat4 =
        DecodeOutcome.ok (.TFloat4 a b c d) ∧
      from_avm2_value (as_avm2_value (.TFloat4 a b c d) false) .TFloat4 =
        DecodeOutcome.ok (.TFloat4 a b c d)) := by
  refine ⟨⟨rfl, ?_⟩, ⟨rfl, ?_⟩, ⟨rfl, ?_⟩⟩ <;>
    simp [as_avm2_value, mkArray, cv, if_neg ha, if_neg hb, if_neg hc,
      if_neg hd, from_avm2_value, isFloatKind, decodeFloatArray, nextFloat,
      coerce_to_number, Bind.bind, Except.bind, pure, Except.pure]

/-- C5 witness: the round trip at the concrete vector `(1/2, 3/2, 5/2,
7/2)`. -/
theorem claim_C5_roundtrip_witness :
    from_avm2_value
        (as_avm2_value (.TFloat4 (1/2) (3/2) (5/2) (7/2)) false) .TFloat4 =
      DecodeOutcome.ok (.TFloat4 (1/2) (3/2) (5/2) (7/2)) :=
  (claim_C5_roundtrip (1/2) (3/2) (5/2) (7/2)
    (by norm_num [ratFract, ratTrunc]) (by norm_num [ratFract, ratTrunc])
    (by norm_num [ratFract, ratTrunc])
    (by norm_num [ratFract, ratTrunc])).2.2.2

/-- C6: every float element is normalized by the one shared rule `cv`:
zero fractional part gives a host Integer by reduction modulo `2^32` into
the signed 32-bit range of the truncated value, otherwise a host Number of
the (exactly widened) value; the rule is applied element-wise to scalar,
vector and matrix float variants alike.  Includes the specification's
examples and a wrap-on-overflow instance at `2^31`. -/
theorem claim_C6_normalization :
    (∀ f : ℚ, cv f =
      if ratFract f = 0 then
        Value.integer ((ratTrunc f + 2 ^ 31) % 2 ^ 32 - 2 ^ 31)
      else Value.number f) ∧
    (∀ (f : ℚ) (flag : Bool),
      as_avm2_value (.TFloat f) flag = mkArray [cv f]) ∧
    (∀ (f1 f2 : ℚ) (flag : Bool),
      as_avm2_value (.TFloat2 f1 f2) flag = mkArray [cv f1, cv f2]) ∧
    (∀ (f1 f2 f3 f4 : ℚ) (flag : Bool),
      as_avm2_value (.TFloat4 f1 f2 f3 f4) flag =
        mkArray [cv f1, cv f2, cv f3, cv f4]) ∧
    (∀ (fs : List ℚ) (flag : Bool),
      as_avm2_value (.TFloat3x3 fs) flag = mkArray (fs.map cv)) ∧
    as_avm2_value (.TFloat2 2 3) false =
      mkArray [Value.integer 2, Value.integer 3] ∧
    as_avm2_value (.TFloat2 (3/2) (5/2)) false =
      mkArray [Value.number (3/2), Value.number (5/2)] ∧
    as_avm2_value (.TFloat (2 ^ 31)) false =
      mkArray [Value.integer (-(2 ^ 31))] := by
  refine ⟨fun f => rfl, fun _ _ => rfl, fun _ _ _ => rfl,
    fun _ _ _ _ _ => rfl, fun _ _ => rfl, ?_, ?_, ?_⟩ <;>
    norm_num [as_avm2_value, cv, ratFract, ratTrunc, f64_to_wrapping_i32,
      wrap32]

/-- C7: `TInt(i)` encodes to the bare host Integer when the scalar-int
flag is set and to a one-element array otherwise, and `TFloat(f)` always
encodes to a one-element array holding the normalized value, for either
flag — a bare scalar float is never returned. -/
theorem claim_C7_scalar_encoding (i : ℤ)
    (hlo : -(2 ^ 15) ≤ i) (hhi : i < 2 ^ 15) :
    as_avm2_value (.TInt i) true = Value.integer i ∧
    as_avm2_value (.TInt i) false = mkArray [Value.integer i] ∧
    (∀ (f : ℚ) (flag : Bool),
      as_avm2_value (.TFloat f) flag = mkArray [cv f]) :=
  ⟨rfl, rfl, fun _ _ => rfl⟩

/-- C7 witness at `i = 5`, the specification's example. -/
theorem claim_C7_scalar_encoding_witness :
    as_avm2_value (.TInt 5) true = Value.integer 5 ∧
    as_avm2_value (.TInt 5) false = mkArray [Value.integer 5] :=
  ⟨(claim_C7_scalar_encoding 5 (by norm_num) (by norm_num)).1,
   (claim_C7_scalar_encoding 5 (by norm_num) (by norm_num)).2.1⟩

/-- The loop of `get_camera_names` equals truncation at the first
device-not-found outcome followed by filtering for opened video-capture
devices, over any outcome list. -/
theorem cameraNamesScan_eq (l : List DeviceProbe) :
    cameraNamesScan l =
      (l.takeWhile notNotFound).filterMap yieldedName := by
  induction l with
  | nil => rfl
  | cons o rest ih =>
    cases o with
    | openNotFound => rfl
    | openPermissionDenied =>
      simpa [cameraNamesScan, List.takeWhile, notNotFound, yieldedName]
        using ih
    | openOtherError =>
      simpa [cameraNamesScan, List.takeWhile, notNotFound, yieldedName]
        using ih
    | capsError =>
      simpa [cameraNamesScan, List.takeWhile, notNotFound, yieldedName]
        using ih
    | opened vc card =>
      cases vc <;>
        simpa [cameraNamesScan, List.takeWhile, notNotFound, yieldedName]
          using ih

/-- The loop of `is_supported` reports whether the loop of
`get_camera_names` would collect anything, over any outcome list. -/
theorem isSupportedScan_eq (l : List DeviceProbe) :
    isSupportedScan l = true ↔ cameraNamesScan l ≠ [] := by
  induction l with
  | nil => simp [isSupportedScan, cameraNamesScan]
  | cons o rest ih =>
    cases o with
    | openNotFound => simp [isSupportedScan, cameraNamesScan]
    | openPermissionDenied => simpa [isSupportedScan, cameraNamesScan] using ih
    | openOtherError => simpa [isSupportedScan, cameraNamesScan] using ih
    | capsError => simpa [isSupportedScan, cameraNamesScan] using ih
    | opened vc card =>
      cases vc
      · simpa [isSupportedScan, cameraNamesScan] using ih
      · simp [isSupportedScan, cameraNamesScan]

/-- C8: for every sequence of probe outcomes, the camera-name enumeration
equals the index-ordered probe sequence `0..10`, truncated at (and
discarding everything from) the first open attempt that reports
device-not-found, keeping exactly the NUL-truncated card names of opened
devices whose capability set includes video-capture — so other open errors
and failed capability queries are skipped and scanning continues. -/
theorem claim_C8_enumeration (probe : ℕ → DeviceProbe) :
    get_camera_names probe =
      (((List.range 10).map probe).takeWhile notNotFound).filterMap
        yieldedName :=
  cameraNamesScan_eq ((List.range 10).map probe)

/-- C9: for the scalar kinds, an Array input is accepted: decode consumes
only the first element, coercing it through the host numeric coercion (to
a number, narrowed to `f32`, for `TFloat`; to a 32-bit integer, narrowed
to a wrapped 16-bit value, for `TInt`), and every element after the first
is ignored. -/
theorem claim_C9_scalar_from_array (v : Value) (rest : List (Option Value)) :
    (∀ q : ℚ, coerce_to_number v = some q →
      from_avm2_value (Value.arrayObject (some v :: rest)) .TFloat =
        DecodeOutcome.ok (.TFloat q)) ∧
    (∀ n : ℤ, coerce_to_i32 v = some n →
      from_avm2_value (Value.arrayObject (some v :: rest)) .TInt =
        DecodeOutcome.ok (.TInt (wrap16 n))) := by
  constructor <;> intro x hx <;>
    simp [from_avm2_value, isFloatKind, decodeFloatArray, decodeIntArray,
      nextFloat, nextInt, hx, Bind.bind, Except.bind, pure, Except.pure]

/-- C9 witness: a two-element array whose second element is even a hole
decodes against `TFloat` to its first element alone. -/
theorem claim_C9_scalar_from_array_witness :
    from_avm2_value
        (Value.arrayObject [some (Value.number (3/2)), none]) .TFloat =
      DecodeOutcome.ok (.TFloat (3/2)) :=
  (claim_C9_scalar_from_array (Value.number (3/2)) [none]).1 (3/2) rfl

/-- C10: the `isSupported` query answers `true` exactly when the
camera-name enumeration is non-empty, for every sequence of probe
outcomes: both run the same bounded `0..10` scan with the same
stop-on-not-found, skip-on-other-error and video-capture filter. -/
theorem claim_C10_isSupported_names (probe : ℕ → DeviceProbe) :
    is_supported probe = true ↔ get_camera_names probe ≠ [] :=
  isSupportedScan_eq ((List.range 10).map probe)

end Ruffle
